import Mathlib

/-!
Shallow embedding of the BootSteroids core (a pygame asteroids game) and
proofs about its specification claims.

Conventions of the embedding:
  - python floats are modelled as rationals;
  - pygame.Vector2 is the structure Vec2 below;
  - the module constants.py is not among the sources, so the constants it
    defines (SCREEN_WIDTH, SCREEN_HEIGHT, ASTEROID_MIN_RADIUS,
    ASTEROID_KINDS, player tuning values) are parameters of the embedded
    functions rather than fixed numerals;
  - calls into random.uniform are parameters constrained to the documented
    ranges;
  - a python function that raises is modelled as returning Option, with
    none for the raise.
-/

/-- Two dimensional vector with rational coordinates, the embedding of
pygame.Vector2. -/
structure Vec2 where
  x : ℚ
  y : ℚ
deriving DecidableEq, Repr

/-- Componentwise vector addition. -/
def Vec2.add (a b : Vec2) : Vec2 := ⟨a.x + b.x, a.y + b.y⟩

/-- Componentwise vector subtraction. -/
def Vec2.sub (a b : Vec2) : Vec2 := ⟨a.x - b.x, a.y - b.y⟩

/-- Scalar multiplication of a vector. -/
def Vec2.smul (q : ℚ) (v : Vec2) : Vec2 := ⟨q * v.x, q * v.y⟩

/-- Squared Euclidean length: the length itself is a square root and so is
kept out of the rational model; functions that need it take it as a
parameter constrained by this square. -/
def Vec2.len2 (v : Vec2) : ℚ := v.x ^ 2 + v.y ^ 2

/-- pygame Vector2.rotate by an angle given through its cosine c and sine s
(counterclockwise in the mathematical convention); rotation by the negated
angle is rot with s negated. -/
def Vec2.rot (v : Vec2) (c s : ℚ) : Vec2 :=
  ⟨v.x * c - v.y * s, v.x * s + v.y * c⟩

/-- One axis of the screen wrap, written identically in Player.wrap_screen
(src/player.py) and Asteroid.wrap_screen (src/asteroid.py): a coordinate
below 0 teleports to the bound, a coordinate above the bound teleports to 0,
anything else is untouched. -/
def wrapAxis (bound x : ℚ) : ℚ :=
  if x < 0 then bound else if x > bound then 0 else x

/-- Player.wrap_screen from src/player.py: wraps each axis independently,
x against SCREEN_WIDTH (here w) and y against SCREEN_HEIGHT (here h). -/
def Player.wrap_screen (w h : ℚ) (p : Vec2) : Vec2 :=
  ⟨wrapAxis w p.x, wrapAxis h p.y⟩

/-- Asteroid.wrap_screen from src/asteroid.py: textually the same wrap as
the player one. -/
def Asteroid.wrap_screen (w h : ℚ) (p : Vec2) : Vec2 :=
  ⟨wrapAxis w p.x, wrapAxis h p.y⟩

/-- The mutable fields of an Asteroid instance (src/asteroid.py) that the
embedded operations touch. -/
structure AsteroidState where
  position : Vec2
  velocity : Vec2
  radius : ℚ
  rotation : ℚ
  rotation_speed : ℚ
deriving DecidableEq, Repr

/-- Asteroid.update from src/asteroid.py: position += velocity * dt,
rotation += rotation_speed * dt, then wrap_screen. -/
def Asteroid.update (w h dt : ℚ) (a : AsteroidState) : AsteroidState :=
  { a with
    position := Asteroid.wrap_screen w h (Vec2.add a.position (Vec2.smul dt a.velocity)),
    rotation := a.rotation + a.rotation_speed * dt }

/-- The mutable fields of the Player instance (src/player.py) that the
embedded operations touch. -/
structure PlayerState where
  position : Vec2
  velocity : Vec2
  rotation : ℚ
  shoot_cooldown : ℚ
deriving DecidableEq, Repr

/-- Player.update from src/player.py. The key polling, thrust and drag steps
only modify velocity, rotation and the shoot cooldown, and involve
trigonometric functions and a real exponent that rationals cannot express,
so the values they produce enter as the parameters newVelocity, newRotation
and newCooldown; after those steps the source runs
position += velocity * dt followed by wrap_screen, which is embedded
exactly. -/
def Player.update (w h dt : ℚ) (newVelocity : Vec2) (newRotation newCooldown : ℚ)
    (p : PlayerState) : PlayerState :=
  { position := Player.wrap_screen w h (Vec2.add p.position (Vec2.smul dt newVelocity)),
    velocity := newVelocity,
    rotation := newRotation,
    shoot_cooldown := newCooldown }

/-- C6: wrapping sends x = -1 to the screen width, x = screen_width + 1 to 0,
and leaves strictly interior coordinates unchanged, on both axes, for both
the Player and the Asteroid wrap. -/
theorem C6_wrap_edges (w h x y : ℚ) (hw : 0 ≤ w) (hh : 0 ≤ h) :
    (Player.wrap_screen w h ⟨-1, y⟩).x = w
    ∧ (Player.wrap_screen w h ⟨w + 1, y⟩).x = 0
    ∧ (0 < x → x < w → (Player.wrap_screen w h ⟨x, y⟩).x = x)
    ∧ (Player.wrap_screen w h ⟨x, -1⟩).y = h
    ∧ (Player.wrap_screen w h ⟨x, h + 1⟩).y = 0
    ∧ (0 < y → y < h → (Player.wrap_screen w h ⟨x, y⟩).y = y)
    ∧ (Asteroid.wrap_screen w h ⟨-1, y⟩).x = w
    ∧ (Asteroid.wrap_screen w h ⟨w + 1, y⟩).x = 0
    ∧ (0 < x → x < w → (Asteroid.wrap_screen w h ⟨x, y⟩).x = x)
    ∧ (Asteroid.wrap_screen w h ⟨x, -1⟩).y = h
    ∧ (Asteroid.wrap_screen w h ⟨x, h + 1⟩).y = 0
    ∧ (0 < y → y < h → (Asteroid.wrap_screen w h ⟨x, y⟩).y = y) := by
  unfold Player.wrap_screen Asteroid.wrap_screen wrapAxis
  refine ⟨?_, ?_, ?_, ?_, ?_, ?_, ?_, ?_, ?_, ?_, ?_, ?_⟩ <;>
    first
      | (intro hx1 hx2; simp only []; split_ifs <;> first | rfl | linarith)
      | (simp only []; split_ifs <;> first | rfl | linarith)

theorem C6_wrap_edges_witness :
    (0:ℚ) ≤ 1280 ∧ (0:ℚ) ≤ 720 ∧
    ((Player.wrap_screen 1280 720 ⟨-1, 3⟩).x = 1280
      ∧ (Player.wrap_screen 1280 720 ⟨1280 + 1, 3⟩).x = 0
      ∧ ((0:ℚ) < 5 → (5:ℚ) < 1280 → (Player.wrap_screen 1280 720 ⟨5, 3⟩).x = 5)
      ∧ (Player.wrap_screen 1280 720 ⟨5, -1⟩).y = 720
      ∧ (Player.wrap_screen 1280 720 ⟨5, 720 + 1⟩).y = 0
      ∧ ((0:ℚ) < 3 → (3:ℚ) < 720 → (Player.wrap_screen 1280 720 ⟨5, 3⟩).y = 3)
      ∧ (Asteroid.wrap_screen 1280 720 ⟨-1, 3⟩).x = 1280
      ∧ (Asteroid.wrap_screen 1280 720 ⟨1280 + 1, 3⟩).x = 0
      ∧ ((0:ℚ) < 5 → (5:ℚ) < 1280 → (Asteroid.wrap_screen 1280 720 ⟨5, 3⟩).x = 5)
      ∧ (Asteroid.wrap_screen 1280 720 ⟨5, -1⟩).y = 720
      ∧ (Asteroid.wrap_screen 1280 720 ⟨5, 720 + 1⟩).y = 0
      ∧ ((0:ℚ) < 3 → (3:ℚ) < 720 → (Asteroid.wrap_screen 1280 720 ⟨5, 3⟩).y = 3)) :=
  ⟨by norm_num, by norm_num, C6_wrap_edges 1280 720 5 3 (by norm_num) (by norm_num)⟩

/-- The wrapped coordinate always lands in the closed interval from 0 to the
bound, provided the bound is nonnegative. -/
theorem wrapAxis_mem_closed (b x : ℚ) (hb : 0 ≤ b) :
    0 ≤ wrapAxis b x ∧ wrapAxis b x ≤ b := by
  unfold wrapAxis; split_ifs <;> constructor <;> linarith

/-- The wrap fixes a coordinate exactly when the coordinate already lies in
the closed interval from 0 to the bound. -/
theorem wrapAxis_fixed_iff (b x : ℚ) (hb : 0 ≤ b) :
    wrapAxis b x = x ↔ (0 ≤ x ∧ x ≤ b) := by
  unfold wrapAxis
  constructor
  · intro hfix
    split_ifs at hfix <;> constructor <;> linarith
  · intro hmem
    split_ifs <;> first | rfl | linarith [hmem.1, hmem.2]

/-- C5 counterexample: after an Asteroid.update tick the position is not
always inside the half open box [0, w) × [0, h): an asteroid stepping to
x = -1 is teleported to x = w itself, which is outside [0, w). Here
w = 1280, h = 720, dt = 1, the asteroid starts at the origin with velocity
(-1, 0). -/
theorem C5_counterexample_half_open :
    (Asteroid.update 1280 720 1 ⟨⟨0, 0⟩, ⟨-1, 0⟩, 20, 0, 0⟩).position.x = 1280
    ∧ ¬ ((Asteroid.update 1280 720 1 ⟨⟨0, 0⟩, ⟨-1, 0⟩, 20, 0, 0⟩).position.x < 1280) := by
  norm_num [Asteroid.update, Asteroid.wrap_screen, wrapAxis, Vec2.add, Vec2.smul]

/-- C5 (amended): after an Asteroid.update or Player.update tick the
position lies in the closed box [0, w] × [0, h] (for nonnegative bounds),
and the wrap is a no-op exactly on the closed interval [0, bound]: it
teleports a coordinate exactly when the coordinate is strictly below 0 or
strictly above the bound. -/
theorem C5_update_position_in_closed_box (w h dt b x : ℚ) (a : AsteroidState)
    (p : PlayerState) (nv : Vec2) (nr nc : ℚ)
    (hw : 0 ≤ w) (hh : 0 ≤ h) (hb : 0 ≤ b) :
    (0 ≤ (Asteroid.update w h dt a).position.x ∧ (Asteroid.update w h dt a).position.x ≤ w
      ∧ 0 ≤ (Asteroid.update w h dt a).position.y ∧ (Asteroid.update w h dt a).position.y ≤ h)
    ∧ (0 ≤ (Player.update w h dt nv nr nc p).position.x
      ∧ (Player.update w h dt nv nr nc p).position.x ≤ w
      ∧ 0 ≤ (Player.update w h dt nv nr nc p).position.y
      ∧ (Player.update w h dt nv nr nc p).position.y ≤ h)
    ∧ (wrapAxis b x = x ↔ (0 ≤ x ∧ x ≤ b)) :=
  ⟨⟨(wrapAxis_mem_closed w _ hw).1, (wrapAxis_mem_closed w _ hw).2,
    (wrapAxis_mem_closed h _ hh).1, (wrapAxis_mem_closed h _ hh).2⟩,
   ⟨(wrapAxis_mem_closed w _ hw).1, (wrapAxis_mem_closed w _ hw).2,
    (wrapAxis_mem_closed h _ hh).1, (wrapAxis_mem_closed h _ hh).2⟩,
   wrapAxis_fixed_iff b x hb⟩

/-- The mutable fields of a ScoreManager instance (src/scoremanager.py).
Python integers are unbounded, hence ℤ. The high score file handling is
input and output glue outside this embedding; high_score is carried as
plain data. -/
structure ScoreManager where
  current_score : ℤ
  last_extra_life_score : ℤ
  high_score : ℤ
deriving DecidableEq, Repr

/-- Class constant EXTRA_LIFE_THRESHOLD = 10000 from src/scoremanager.py. -/
def ScoreManager.EXTRA_LIFE_THRESHOLD : ℤ := 10000

/-- Class constant LARGE_ASTEROID_POINTS = 20 from src/scoremanager.py. -/
def ScoreManager.LARGE_ASTEROID_POINTS : ℤ := 20

/-- Class constant MEDIUM_ASTEROID_POINTS = 50 from src/scoremanager.py. -/
def ScoreManager.MEDIUM_ASTEROID_POINTS : ℤ := 50

/-- Class constant SMALL_ASTEROID_POINTS = 100 from src/scoremanager.py. -/
def ScoreManager.SMALL_ASTEROID_POINTS : ℤ := 100

/-- ScoreManager.add_score from src/scoremanager.py: raises ValueError on a
negative points argument (modelled as none, the score left as it was), else
accumulates. -/
def ScoreManager.add_score (m : ScoreManager) (points : ℤ) : Option ScoreManager :=
  if points < 0 then none
  else some { m with current_score := m.current_score + points }

/-- ScoreManager.check_extra_life from src/scoremanager.py: when the current
score has reached the last milestone plus the threshold, snap the milestone
marker to the greatest multiple of the threshold at most the score and
report true; Int.fdiv is floor division, matching the python // operator. -/
def ScoreManager.check_extra_life (m : ScoreManager) : Bool × ScoreManager :=
  if m.last_extra_life_score + ScoreManager.EXTRA_LIFE_THRESHOLD ≤ m.current_score then
    let marker : ℤ :=
      Int.fdiv m.current_score ScoreManager.EXTRA_LIFE_THRESHOLD *
        ScoreManager.EXTRA_LIFE_THRESHOLD
    (true, { m with last_extra_life_score := marker })
  else (false, m)

/-- C9: add_score fails (raises ValueError, modelled none) exactly on
negative points, leaving the score unchanged since the exception fires
before any mutation; on nonnegative points it adds them, so the score never
decreases through add_score. -/
theorem C9_add_score_negative_guard (m : ScoreManager) (points : ℤ) :
    (points < 0 → m.add_score points = none)
    ∧ (0 ≤ points →
        m.add_score points = some { m with current_score := m.current_score + points })
    ∧ (∀ m2 : ScoreManager, m.add_score points = some m2 →
        m.current_score ≤ m2.current_score) := by
  unfold ScoreManager.add_score
  refine ⟨fun hneg => by simp [hneg], fun hpos => by simp [not_lt.mpr hpos], ?_⟩
  intro m2 hsome
  split_ifs at hsome with hlt
  cases Option.some.inj hsome
  simpa using not_lt.mp hlt

theorem C9_add_score_negative_guard_witness :
    ((-1 : ℤ) < 0 → ScoreManager.add_score ⟨7, 0, 0⟩ (-1) = none)
    ∧ ((0 : ℤ) ≤ 5 →
        ScoreManager.add_score ⟨7, 0, 0⟩ 5 = some ⟨7 + 5, 0, 0⟩)
    ∧ (∀ m2 : ScoreManager, ScoreManager.add_score ⟨7, 0, 0⟩ 5 = some m2 →
        (7 : ℤ) ≤ m2.current_score) := by
  have h := C9_add_score_negative_guard ⟨7, 0, 0⟩ 5
  have hneg := (C9_add_score_negative_guard ⟨7, 0, 0⟩ (-1)).1
  exact ⟨fun hv => hneg hv, fun hv => h.2.1 hv, h.2.2⟩

/-- C3: check_extra_life answers true exactly when the current score has
reached the last milestone plus EXTRA_LIFE_THRESHOLD, and on true it snaps
the marker to the greatest multiple of the threshold at most the score;
concretely, from the initial manager, add_score 9999 then check is false, a
further add_score 1 makes check true exactly once, every following check is
false while the score stays below 20000, and at 20000 it triggers again. -/
theorem C3_check_extra_life (m s : ScoreManager) :
    ((m.check_extra_life.1 = true ↔
        m.last_extra_life_score + ScoreManager.EXTRA_LIFE_THRESHOLD ≤ m.current_score)
      ∧ (m.check_extra_life.1 = true →
          m.check_extra_life.2.last_extra_life_score =
            Int.fdiv m.current_score ScoreManager.EXTRA_LIFE_THRESHOLD
              * ScoreManager.EXTRA_LIFE_THRESHOLD)
      ∧ (m.check_extra_life.1 = false → m.check_extra_life.2 = m))
    ∧ (s.last_extra_life_score = 10000 → s.current_score < 20000 →
        s.check_extra_life.1 = false)
    ∧ ScoreManager.add_score ⟨0, 0, 0⟩ 9999 = some ⟨9999, 0, 0⟩
    ∧ (ScoreManager.check_extra_life ⟨9999, 0, 0⟩).1 = false
    ∧ ScoreManager.add_score ⟨9999, 0, 0⟩ 1 = some ⟨10000, 0, 0⟩
    ∧ ScoreManager.check_extra_life ⟨10000, 0, 0⟩ = (true, ⟨10000, 10000, 0⟩)
    ∧ (ScoreManager.check_extra_life ⟨10000, 10000, 0⟩).1 = false
    ∧ (ScoreManager.check_extra_life ⟨19999, 10000, 0⟩).1 = false
    ∧ (ScoreManager.check_extra_life ⟨20000, 10000, 0⟩).1 = true := by
  unfold ScoreManager.check_extra_life ScoreManager.add_score
    ScoreManager.EXTRA_LIFE_THRESHOLD
  refine ⟨⟨?_, ?_, ?_⟩, ?_, ?_, ?_, ?_, ?_, ?_, ?_, ?_⟩
  · split_ifs with hc <;> simp [hc]
  · split_ifs with hc <;> simp
  · split_ifs with hc <;> simp
  · intro hlast hlt
    split_ifs with hc
    · rw [hlast] at hc
      exact absurd hc (by omega)
    · rfl
  all_goals decide

theorem C3_check_extra_life_witness :
    (ScoreManager.check_extra_life ⟨19999, 10000, 0⟩).1 = false :=
  (C3_check_extra_life ⟨19999, 10000, 0⟩ ⟨19999, 10000, 0⟩).2.1 rfl (by norm_num)

/-- The mutable fields of a LivesManager instance (src/livesmanager.py).
Counts are python integers (ℤ); durations and the wall clock timestamps fed
by time.time() are ℚ. -/
structure LivesManager where
  initial_lives : ℤ
  invincibility_duration : ℚ
  current_lives : ℤ
  is_invincible_active : Bool
  invincibility_start_time : ℚ
deriving DecidableEq, Repr

/-- The LivesManager constructor from src/livesmanager.py: none arguments
fall back to the class defaults 3 and 2.0, negative values raise ValueError
(modelled as none). -/
def LivesManager.make (initial_lives : Option ℤ) (invincibility_duration : Option ℚ) :
    Option LivesManager :=
  let il := initial_lives.getD 3
  let dur := invincibility_duration.getD 2
  if il < 0 then none
  else if dur < 0 then none
  else some ⟨il, dur, il, false, 0⟩

/-- LivesManager.start_invincibility from src/livesmanager.py; now is the
time.time() value at the call. -/
def LivesManager.start_invincibility (lm : LivesManager) (now : ℚ) : LivesManager :=
  { lm with is_invincible_active := true, invincibility_start_time := now }

/-- LivesManager.lose_life from src/livesmanager.py: when lives remain,
decrement and start invincibility; in every case return whether the count
is now at most zero. -/
def LivesManager.lose_life (lm : LivesManager) (now : ℚ) : Bool × LivesManager :=
  if 0 < lm.current_lives then
    let lm2 := ({ lm with current_lives := lm.current_lives - 1 }).start_invincibility now
    (decide (lm2.current_lives ≤ 0), lm2)
  else
    (decide (lm.current_lives ≤ 0), lm)

/-- LivesManager.add_life from src/livesmanager.py. -/
def LivesManager.add_life (lm : LivesManager) : LivesManager :=
  { lm with current_lives := lm.current_lives + 1 }

/-- LivesManager.is_invincible from src/livesmanager.py: lazily clears the
invincibility flag once the elapsed time has reached the duration, and
reports whether the player is invincible now. -/
def LivesManager.is_invincible (lm : LivesManager) (now : ℚ) : Bool × LivesManager :=
  if !lm.is_invincible_active then (false, lm)
  else if lm.invincibility_duration ≤ now - lm.invincibility_start_time then
    (false, { lm with is_invincible_active := false })
  else (true, lm)

/-- C4: lose_life decrements and starts invincibility exactly when lives are
positive, answers true exactly when the count is zero afterwards (under the
constructor invariant that the count is nonnegative), and from the
constructor with initial_lives 3 four successive calls answer false, false,
true, true with zero lives remaining. -/
theorem C4_lose_life (lm : LivesManager) (now : ℚ) (hnn : 0 ≤ lm.current_lives) :
    ((0 < lm.current_lives →
        (lm.lose_life now).2.current_lives = lm.current_lives - 1
        ∧ (lm.lose_life now).2.is_invincible_active = true
        ∧ (lm.lose_life now).2.invincibility_start_time = now)
      ∧ (lm.current_lives = 0 → (lm.lose_life now).2 = lm)
      ∧ ((lm.lose_life now).1 = true ↔ (lm.lose_life now).2.current_lives = 0))
    ∧ (LivesManager.make (some 3) none = some ⟨3, 2, 3, false, 0⟩
      ∧ (LivesManager.lose_life ⟨3, 2, 3, false, 0⟩ 1) = (false, ⟨3, 2, 2, true, 1⟩)
      ∧ (LivesManager.lose_life ⟨3, 2, 2, true, 1⟩ 2) = (false, ⟨3, 2, 1, true, 2⟩)
      ∧ (LivesManager.lose_life ⟨3, 2, 1, true, 2⟩ 3) = (true, ⟨3, 2, 0, true, 3⟩)
      ∧ (LivesManager.lose_life ⟨3, 2, 0, true, 3⟩ 4) = (true, ⟨3, 2, 0, true, 3⟩)) := by
  unfold LivesManager.lose_life LivesManager.start_invincibility LivesManager.make
  refine ⟨⟨?_, ?_, ?_⟩, by decide, by decide, by decide, by decide, by decide⟩
  · intro hpos
    rw [if_pos hpos]
    exact ⟨rfl, rfl, rfl⟩
  · intro hzero
    rw [if_neg (by omega)]
  · split_ifs with hpos
    · simp only [decide_eq_true_eq]
      omega
    · simp only [decide_eq_true_eq]
      omega

theorem C4_lose_life_witness :
    ((0:ℤ) < 1 →
        ((LivesManager.lose_life ⟨3, 2, 1, true, 2⟩ 3).2.current_lives = 1 - 1
        ∧ (LivesManager.lose_life ⟨3, 2, 1, true, 2⟩ 3).2.is_invincible_active = true
        ∧ (LivesManager.lose_life ⟨3, 2, 1, true, 2⟩ 3).2.invincibility_start_time = 3))
    ∧ ((LivesManager.lose_life ⟨3, 2, 1, true, 2⟩ 3).1 = true ↔
        (LivesManager.lose_life ⟨3, 2, 1, true, 2⟩ 3).2.current_lives = 0) := by
  have h := C4_lose_life ⟨3, 2, 1, true, 2⟩ 3 (by norm_num)
  exact ⟨h.1.1, h.1.2.2⟩

/-- The calls a GameStateManager makes into its states (src/gamestate.py
methods enter, exit, update, draw, handle_event), recorded as a trace; σ is
the type of state objects. -/
inductive StateCall (σ : Type) where
  | exitCall (s : σ)
  | enterCall (s : σ)
  | updateCall (s : σ)
  | drawCall (s : σ)
  | handleEventCall (s : σ)
deriving DecidableEq, Repr

/-- The fields of a GameStateManager instance (src/gamestatemanager.py):
the active state and the queued next state, both possibly absent. -/
structure GameStateManager (σ : Type) where
  current_state : Option σ
  next_state : Option σ
deriving DecidableEq, Repr

/-- GameStateManager.change_state from src/gamestatemanager.py: only queues
the state; the empty trace records that it calls into no state itself. -/
def GameStateManager.change_state (m : GameStateManager σ) (new_state : σ) :
    GameStateManager σ × List (StateCall σ) :=
  ({ m with next_state := some new_state }, [])

/-- GameStateManager.update from src/gamestatemanager.py: applies a queued
transition first (exit on the outgoing state when there is one, then enter
on the incoming one), then delegates update to the now current state. -/
def GameStateManager.update (m : GameStateManager σ) :
    GameStateManager σ × List (StateCall σ) :=
  match m.next_state with
  | some n =>
    let exitCalls : List (StateCall σ) :=
      match m.current_state with
      | some c => [StateCall.exitCall c]
      | none => []
    (⟨some n, none⟩, exitCalls ++ [StateCall.enterCall n, StateCall.updateCall n])
  | none =>
    match m.current_state with
    | some c => (m, [StateCall.updateCall c])
    | none => (m, [])

/-- GameStateManager.draw from src/gamestatemanager.py: delegates to the
current state, ignoring any queued next state. -/
def GameStateManager.draw (m : GameStateManager σ) : List (StateCall σ) :=
  match m.current_state with
  | some c => [StateCall.drawCall c]
  | none => []

/-- GameStateManager.handle_event from src/gamestatemanager.py: delegates
to the current state, ignoring any queued next state. -/
def GameStateManager.handle_event (m : GameStateManager σ) : List (StateCall σ) :=
  match m.current_state with
  | some c => [StateCall.handleEventCall c]
  | none => []

/-- C2: change_state makes no enter or exit call itself and leaves the
current state in place (draw and handle_event still go to the old state);
the next update tick performs exactly one exit on the outgoing state,
then the enter of the queued state, then delegates that same update tick
to it. -/
theorem C2_deferred_transition (σ : Type) (m : GameStateManager σ) (X c : σ)
    (hcur : m.current_state = some c) :
    (m.change_state X).2 = []
    ∧ (m.change_state X).1.current_state = some c
    ∧ (m.change_state X).1.draw = [StateCall.drawCall c]
    ∧ (m.change_state X).1.handle_event = [StateCall.handleEventCall c]
    ∧ ((m.change_state X).1.update).2 =
        [StateCall.exitCall c, StateCall.enterCall X, StateCall.updateCall X]
    ∧ ((m.change_state X).1.update).1 = ⟨some X, none⟩ := by
  unfold GameStateManager.change_state GameStateManager.update
    GameStateManager.draw GameStateManager.handle_event
  simp [hcur]

theorem C2_deferred_transition_witness :
    ((GameStateManager.change_state ⟨some 0, none⟩ 1).2 = ([] : List (StateCall ℕ)))
    ∧ (GameStateManager.change_state ⟨some 0, none⟩ 1).1.current_state = some 0
    ∧ (GameStateManager.change_state ⟨some 0, none⟩ 1).1.draw = [StateCall.drawCall 0]
    ∧ (GameStateManager.change_state ⟨some 0, none⟩ 1).1.handle_event =
        [StateCall.handleEventCall 0]
    ∧ ((GameStateManager.change_state ⟨some 0, none⟩ 1).1.update).2 =
        [StateCall.exitCall 0, StateCall.enterCall 1, StateCall.updateCall 1]
    ∧ ((GameStateManager.change_state ⟨some 0, none⟩ 1).1.update).1 = ⟨some 1, none⟩ :=
  C2_deferred_transition ℕ ⟨some 0, none⟩ 1 0 rfl

/-- C10: queueing Y and then X between two ticks leaves only X in effect:
neither call emits state calls, the next update exits the old current state
exactly once and enters only X, and the overwritten Y receives no enter and
no exit call at all (when Y is distinct from both). -/
theorem C10_last_queued_state_wins (σ : Type) (m : GameStateManager σ) (X Y c : σ)
    (hcur : m.current_state = some c) :
    ((m.change_state Y).2 = []
      ∧ ((m.change_state Y).1.change_state X).2 = []
      ∧ (((m.change_state Y).1.change_state X).1.update).2 =
          [StateCall.exitCall c, StateCall.enterCall X, StateCall.updateCall X]
      ∧ (((m.change_state Y).1.change_state X).1.update).1 = ⟨some X, none⟩)
    ∧ (Y ≠ c → Y ≠ X →
        StateCall.enterCall Y ∉ (((m.change_state Y).1.change_state X).1.update).2
        ∧ StateCall.exitCall Y ∉ (((m.change_state Y).1.change_state X).1.update).2) := by
  unfold GameStateManager.change_state GameStateManager.update
  refine ⟨by simp [hcur], ?_⟩
  intro hYc hYX
  simp [hcur]
  constructor
  · intro hbad
    rcases hbad with hbad | hbad | hbad
    all_goals simp_all
  · intro hbad
    rcases hbad with hbad | hbad | hbad
    all_goals simp_all

theorem C10_last_queued_state_wins_witness :
    ((GameStateManager.change_state ⟨some 0, none⟩ (1 : ℕ)).2 = []
      ∧ (((GameStateManager.change_state ⟨some 0, none⟩ 1).1).change_state 2).2 = []
      ∧ (((((GameStateManager.change_state ⟨some 0, none⟩ 1).1).change_state 2).1).update).2 =
          [StateCall.exitCall 0, StateCall.enterCall 2, StateCall.updateCall 2]
      ∧ (((((GameStateManager.change_state ⟨some 0, none⟩ 1).1).change_state 2).1).update).1 =
          ⟨some 2, none⟩)
    ∧ ((1 : ℕ) ≠ 0 → (1 : ℕ) ≠ 2 →
        StateCall.enterCall 1 ∉
          (((((GameStateManager.change_state ⟨some 0, none⟩ 1).1).change_state 2).1).update).2
        ∧ StateCall.exitCall 1 ∉
          (((((GameStateManager.change_state ⟨some 0, none⟩ 1).1).change_state 2).1).update).2) :=
  C10_last_queued_state_wins ℕ ⟨some 0, none⟩ 2 1 0 rfl

/-- The point tier computed at the top of Asteroid.split in src/asteroid.py,
as a function of the constants and the radius (constants.py is not among
the sources, so ASTEROID_MIN_RADIUS and ASTEROID_KINDS are the parameters
minRadius and kinds). -/
def Asteroid.splitPoints (minRadius kinds radius : ℚ) : ℤ :=
  let max_radius := minRadius * kinds
  if radius ≥ max_radius then 20
  else if radius ≥ minRadius * 2 then 50
  else 100

/-- ScoreManager.get_points_for_asteroid_size from src/scoremanager.py, the
independently written copy of the same tier policy. -/
def ScoreManager.get_points_for_asteroid_size (minRadius kinds radius : ℚ) : ℤ :=
  let max_radius := minRadius * kinds
  if radius ≥ max_radius then ScoreManager.LARGE_ASTEROID_POINTS
  else if radius ≥ minRadius * 2 then ScoreManager.MEDIUM_ASTEROID_POINTS
  else ScoreManager.SMALL_ASTEROID_POINTS

/-- Modelled from the spec wording of the single authoritative tier policy:
radius at least minRadius times kinds scores 20, otherwise at least twice
minRadius scores 50, otherwise 100. -/
def specPointsForRadius (minRadius kinds radius : ℚ) : ℤ :=
  if minRadius * kinds ≤ radius then 20
  else if minRadius * 2 ≤ radius then 50
  else 100

/-- C7: the tier policy written inline in Asteroid.split and the one in
ScoreManager.get_points_for_asteroid_size are extensionally equal functions
of the radius (for every choice of the shared constants), and both agree
with the single policy the spec states. -/
theorem C7_tier_policies_agree (minRadius kinds radius : ℚ) :
    Asteroid.splitPoints minRadius kinds radius =
      ScoreManager.get_points_for_asteroid_size minRadius kinds radius
    ∧ Asteroid.splitPoints minRadius kinds radius =
      specPointsForRadius minRadius kinds radius := by
  unfold Asteroid.splitPoints ScoreManager.get_points_for_asteroid_size
    specPointsForRadius ScoreManager.LARGE_ASTEROID_POINTS
    ScoreManager.MEDIUM_ASTEROID_POINTS ScoreManager.SMALL_ASTEROID_POINTS
  constructor
  · rfl
  · simp only [ge_iff_le]

/-- The values Asteroid.split draws from random.uniform, with base_angle
represented by its cosine and sine. -/
structure SplitDraw where
  angleCos : ℚ
  angleSin : ℚ
  speed_multiplier : ℚ
  perpScale : ℚ
deriving DecidableEq, Repr

/-- The documented ranges of the draws in src/asteroid.py:
base_angle = random.uniform(30, 60) in degrees, which for the cosine and
sine pair means both positive with the squared sine between 1/4 and 3/4 on
the unit circle; speed_multiplier = random.uniform(1.1, 1.5);
perpScale = random.uniform(-30, 30). -/
def SplitDraw.inRange (d : SplitDraw) : Prop :=
  0 < d.angleCos ∧ 0 < d.angleSin
    ∧ d.angleCos ^ 2 + d.angleSin ^ 2 = 1
    ∧ (1 : ℚ)/4 ≤ d.angleSin ^ 2 ∧ d.angleSin ^ 2 ≤ 3/4
    ∧ (11 : ℚ)/10 ≤ d.speed_multiplier ∧ d.speed_multiplier ≤ 3/2
    ∧ (-30 : ℚ) ≤ d.perpScale ∧ d.perpScale ≤ 30

/-- The value Asteroid.split returns together with the children it spawned
into the asteroid groups; the parent itself is killed unconditionally
before this value is produced. -/
structure SplitResult where
  points : ℤ
  children : List AsteroidState
deriving DecidableEq, Repr

/-- Asteroid.split from src/asteroid.py. minRadius and kinds stand for the
constants ASTEROID_MIN_RADIUS and ASTEROID_KINDS from the absent
constants.py; d holds the random.uniform draws; parentLen is the Euclidean
length of the parent velocity, the square root that the pygame normalize
call divides by (pygame raises ValueError on a zero vector, modelled as
none); rotPerturb and rotSpeedPerturb are the random perturbations, in
range (-45, 45) and (-60, 60), the children inherit on top of the parent
rotation values. The velocity of child one rotates the parent velocity by
the base angle, scales it, and adds the perpendicular component; child two
uses the negated angle and subtracts the same component. -/
def Asteroid.split (minRadius kinds : ℚ) (d : SplitDraw)
    (parentLen rotPerturb1 rotSpeedPerturb1 rotPerturb2 rotSpeedPerturb2 : ℚ)
    (a : AsteroidState) : Option SplitResult :=
  let points := Asteroid.splitPoints minRadius kinds a.radius
  if a.radius ≤ minRadius then some ⟨points, []⟩
  else if a.velocity = ⟨0, 0⟩ then none
  else
    let new_radius := a.radius - minRadius
    let perpendicular_velocity :=
      Vec2.smul (d.perpScale / parentLen) ⟨-a.velocity.y, a.velocity.x⟩
    let velocity1 :=
      Vec2.add (Vec2.smul d.speed_multiplier (a.velocity.rot d.angleCos d.angleSin))
        perpendicular_velocity
    let velocity2 :=
      Vec2.sub (Vec2.smul d.speed_multiplier (a.velocity.rot d.angleCos (-d.angleSin)))
        perpendicular_velocity
    some ⟨points,
      [⟨a.position, velocity1, new_radius,
          a.rotation + rotPerturb1, a.rotation_speed + rotSpeedPerturb1⟩,
        ⟨a.position, velocity2, new_radius,
          a.rotation + rotPerturb2, a.rotation_speed + rotSpeedPerturb2⟩]⟩

/-- C1: at a random draw inside every documented range (angle about 36.87
degrees whose sine is 3/5, speed multiplier 1.1, perpendicular scale -6.6),
a medium asteroid of radius twice the minimum with velocity (10, 0) splits
into two children whose velocity vectors are exactly equal, (44/5, 0): the
perpendicular component cancels the angular divergence, contradicting the
claim (and the repository test) that the children velocities always differ.
The constants are instantiated at minRadius 20 and kinds 3; parentLen 10 is
the genuine length of (10, 0). -/
theorem C1_split_can_produce_equal_child_velocities :
    SplitDraw.inRange ⟨4/5, 3/5, 11/10, -33/5⟩
    ∧ (10 : ℚ) ^ 2 = Vec2.len2 ⟨10, 0⟩
    ∧ Asteroid.split 20 3 ⟨4/5, 3/5, 11/10, -33/5⟩ 10 0 0 0 0
        ⟨⟨100, 100⟩, ⟨10, 0⟩, 40, 0, 0⟩ =
      some ⟨50, [⟨⟨100, 100⟩, ⟨44/5, 0⟩, 20, 0, 0⟩,
        ⟨⟨100, 100⟩, ⟨44/5, 0⟩, 20, 0, 0⟩]⟩ := by
  refine ⟨?_, by norm_num [Vec2.len2], ?_⟩
  · unfold SplitDraw.inRange
    norm_num
  · unfold Asteroid.split Asteroid.splitPoints
    norm_num [Vec2.add, Vec2.sub, Vec2.smul, Vec2.rot]

/-- The collision data of a sprite in the playing state: the circle the
CircleShape base class collides with. For the C8 tick model the asteroids,
shots and player enter through this shape; the split children of an
asteroid, whose velocities are random, enter through an abstract
childrenOf parameter. -/
structure Entity where
  position : Vec2
  radius : ℚ
deriving DecidableEq, Repr

/-- CircleShape.isColliding from src/circleshape.py: true exactly when the
distance between the centers is at most the sum of the radii. The distance
is a square root, so the test is phrased with squares: for a nonnegative
radius sum s the comparison dist less-or-equal s holds exactly when the
squared distance is at most s squared, and for a negative s it never holds
since a distance is nonnegative. -/
def isColliding (a b : Entity) : Bool :=
  let s := a.radius + b.radius
  decide (0 ≤ s) &&
    decide ((a.position.x - b.position.x) ^ 2 + (a.position.y - b.position.y) ^ 2 ≤ s ^ 2)

/-- How the collision section of a PlayingState.update tick ended: normally,
with a player respawn after a survivable hit, or with the queued game over
transition. -/
inductive TickOutcome where
  | normal
  | respawned
  | gameOver
deriving DecidableEq, Repr

/-- The playing state data the collision section of PlayingState.update
returns: the asteroid group, the shot group, the two managers and how the
section ended. -/
structure TickResult where
  asteroids : List Entity
  shots : List Entity
  score_manager : ScoreManager
  lives_manager : LivesManager
  outcome : TickOutcome
deriving DecidableEq, Repr

/-- The inner shot loop of PlayingState.update in src/states/playingstate.py
for one asteroid: every live shot colliding with the asteroid triggers
asteroid.split() — killing the asteroid and spawning the children batch
(none when the radius is at most the minimum) — awards the tier points
through ScoreManager.add_score (whose negative guard never fires on the
tier values, hence the getD), grants an extra life on a milestone, and
kills the shot. Returns the surviving shots, the spawned children (one
batch per colliding shot, since every collision calls split again), the
updated managers, and whether the asteroid was split at least once. -/
def shotLoop (minRadius kinds : ℚ) (childrenOf : Entity → List Entity) (a : Entity) :
    List Entity → ScoreManager → LivesManager →
    List Entity × List Entity × ScoreManager × LivesManager × Bool
  | [], sm, lm => ([], [], sm, lm, false)
  | sh :: rest, sm, lm =>
    if isColliding a sh then
      let points := Asteroid.splitPoints minRadius kinds a.radius
      let children := if a.radius ≤ minRadius then [] else childrenOf a
      let sm1 := (sm.add_score points).getD sm
      let checked := sm1.check_extra_life
      let lm1 := if checked.1 then lm.add_life else lm
      let r := shotLoop minRadius kinds childrenOf a rest checked.2 lm1
      (r.1, children ++ r.2.1, r.2.2.1, r.2.2.2.1, true)
    else
      let r := shotLoop minRadius kinds childrenOf a rest sm lm
      (sh :: r.1, r.2.1, r.2.2.1, r.2.2.2.1, r.2.2.2.2)

/-- The collision section of PlayingState.update in
src/states/playingstate.py, run after the sprite updates: walk the asteroid
group snapshot; an asteroid colliding with the player while the lazily
evaluated invincibility is off triggers the hit sequence — lose_life, then
either the queued game over transition (the return leaves every asteroid
alive) or a player respawn (the break does too) — and otherwise the shot
loop runs for that asteroid. now is the wall clock time during the tick;
particle emission, the respawn position reset and the high score save are
display or persistence glue outside this model. -/
def collisionLoop (minRadius kinds : ℚ) (childrenOf : Entity → List Entity)
    (player : Entity) (now : ℚ) :
    List Entity → List Entity → ScoreManager → LivesManager → TickResult
  | [], shots, sm, lm => ⟨[], shots, sm, lm, TickOutcome.normal⟩
  | a :: rest, shots, sm, lm =>
    let inv := lm.is_invincible now
    if isColliding a player && !inv.1 then
      let lost := inv.2.lose_life now
      if lost.1 then ⟨a :: rest, shots, sm, lost.2, TickOutcome.gameOver⟩
      else ⟨a :: rest, shots, sm, lost.2, TickOutcome.respawned⟩
    else
      let s := shotLoop minRadius kinds childrenOf a shots sm inv.2
      let res := collisionLoop minRadius kinds childrenOf player now rest s.1 s.2.2.1 s.2.2.2.1
      { res with asteroids := (if s.2.2.2.2 then [] else [a]) ++ s.2.1 ++ res.asteroids }

/-- Granting an extra life conditionally never touches the invincibility
flag. -/
theorem add_life_if_keeps_flag (lm : LivesManager) (c : Bool) :
    (if c = true then lm.add_life else lm).is_invincible_active
      = lm.is_invincible_active := by
  split_ifs with h
  · rfl
  · rfl

/-- The shot loop never touches the invincibility flag: the only lives
manager call it makes is add_life. -/
theorem shotLoop_keeps_invincibility_flag (minRadius kinds : ℚ)
    (childrenOf : Entity → List Entity) (a : Entity) :
    ∀ (shots : List Entity) (sm : ScoreManager) (lm : LivesManager),
      ((shotLoop minRadius kinds childrenOf a shots sm lm).2.2.2.1).is_invincible_active
        = lm.is_invincible_active := by
  intro shots
  induction shots with
  | nil => intro sm lm; rfl
  | cons sh rest ih =>
    intro sm lm
    unfold shotLoop
    split_ifs with hc hr
    · exact (ih _ _).trans (add_life_if_keeps_flag lm _)
    · exact (ih _ _).trans (add_life_if_keeps_flag lm _)
    · exact ih sm lm

/-- With the invincibility flag off, the lazy is_invincible query reports
false and changes nothing. -/
theorem is_invincible_of_flag_off (lm : LivesManager) (now : ℚ)
    (hoff : lm.is_invincible_active = false) :
    lm.is_invincible now = (false, lm) := by
  unfold LivesManager.is_invincible
  rw [hoff]
  rfl

/-- C8 counterexample: a single asteroid overlapping the non invincible
player (three lives) is still present, unsplit, in the asteroid group after
the collision section of the tick; the hit only costs a life and respawns
the player. Under the claim the asteroid would have been destroyed. -/
theorem C8_counterexample_ship_hit_keeps_asteroid :
    collisionLoop 20 3 (fun _ => []) ⟨⟨0, 0⟩, 20⟩ 0
      [⟨⟨0, 0⟩, 40⟩] [] ⟨0, 0, 0⟩ ⟨3, 2, 3, false, 0⟩ =
    ⟨[⟨⟨0, 0⟩, 40⟩], [], ⟨0, 0, 0⟩, ⟨3, 2, 2, true, 0⟩, TickOutcome.respawned⟩ := by
  norm_num [collisionLoop, LivesManager.is_invincible, LivesManager.lose_life,
    LivesManager.start_invincibility, isColliding]

/-- C8 (amended): during the collision section of a Playing tick, when an
asteroid collides with the ship while the ship is not invincible (and it is
the first such asteroid the loop meets), the hit sequence runs — the tick
ends in a respawn or in the game over transition instead of normally — but
the asteroid is NOT destroyed: the same asteroid is still a member of the
asteroid group afterwards, the player merely absorbing the hit. -/
theorem C8_ship_hit_asteroid_survives (minRadius kinds : ℚ)
    (childrenOf : Entity → List Entity) (player a : Entity) (now : ℚ)
    (pre rest shots : List Entity) (sm : ScoreManager) (lm : LivesManager)
    (hinv : lm.is_invincible_active = false)
    (hpre : ∀ b ∈ pre, isColliding b player = false)
    (hhit : isColliding a player = true) :
    a ∈ (collisionLoop minRadius kinds childrenOf player now
          (pre ++ a :: rest) shots sm lm).asteroids
    ∧ ((collisionLoop minRadius kinds childrenOf player now
          (pre ++ a :: rest) shots sm lm).outcome = TickOutcome.gameOver
      ∨ (collisionLoop minRadius kinds childrenOf player now
          (pre ++ a :: rest) shots sm lm).outcome = TickOutcome.respawned) := by
  induction pre generalizing shots sm lm with
  | nil =>
    rw [List.nil_append]
    unfold collisionLoop
    rw [is_invincible_of_flag_off lm now hinv]
    simp only [hhit, Bool.not_false, Bool.and_self, if_true]
    split_ifs with hlost
    · exact ⟨List.mem_cons_self a rest, Or.inl rfl⟩
    · exact ⟨List.mem_cons_self a rest, Or.inr rfl⟩
  | cons b pre2 ih =>
    rw [List.cons_append]
    unfold collisionLoop
    rw [is_invincible_of_flag_off lm now hinv]
    simp only [hpre b (List.mem_cons_self b pre2), Bool.false_and, Bool.not_false,
      if_neg, ite_false, Bool.false_eq_true]
    have hflag : ((shotLoop minRadius kinds childrenOf b shots sm lm).2.2.2.1).is_invincible_active = false := by
      rw [shotLoop_keeps_invincibility_flag]
      exact hinv
    have ihx := ih ((shotLoop minRadius kinds childrenOf b shots sm lm).1)
      ((shotLoop minRadius kinds childrenOf b shots sm lm).2.2.1) ((shotLoop minRadius kinds childrenOf b shots sm lm).2.2.2.1)
      hflag (fun c hc => hpre c (List.mem_cons_of_mem b hc))
    refine ⟨?_, ihx.2⟩
    apply List.mem_append_right
    exact ihx.1

theorem C8_ship_hit_asteroid_survives_witness :
    (⟨⟨0, 0⟩, 40⟩ : Entity) ∈ (collisionLoop 20 3 (fun _ => []) ⟨⟨0, 0⟩, 20⟩ 0
        ([] ++ (⟨⟨0, 0⟩, 40⟩ : Entity) :: []) [] ⟨0, 0, 0⟩ ⟨3, 2, 3, false, 0⟩).asteroids
    ∧ ((collisionLoop 20 3 (fun _ => []) ⟨⟨0, 0⟩, 20⟩ 0
        ([] ++ (⟨⟨0, 0⟩, 40⟩ : Entity) :: []) [] ⟨0, 0, 0⟩ ⟨3, 2, 3, false, 0⟩).outcome
          = TickOutcome.gameOver
      ∨ (collisionLoop 20 3 (fun _ => []) ⟨⟨0, 0⟩, 20⟩ 0
        ([] ++ (⟨⟨0, 0⟩, 40⟩ : Entity) :: []) [] ⟨0, 0, 0⟩ ⟨3, 2, 3, false, 0⟩).outcome
          = TickOutcome.respawned) :=
  C8_ship_hit_asteroid_survives 20 3 (fun _ => []) ⟨⟨0, 0⟩, 20⟩ ⟨⟨0, 0⟩, 40⟩ 0
    [] [] [] ⟨0, 0, 0⟩ ⟨3, 2, 3, false, 0⟩ rfl (by simp) (by norm_num [isColliding])

theorem C5_update_position_in_closed_box_witness :
    (0:ℚ) ≤ 1280 ∧ (0:ℚ) ≤ 720 ∧ (0:ℚ) ≤ 100 ∧
    (((0 ≤ (Asteroid.update 1280 720 1 ⟨⟨0, 0⟩, ⟨-1, 0⟩, 20, 0, 0⟩).position.x
      ∧ (Asteroid.update 1280 720 1 ⟨⟨0, 0⟩, ⟨-1, 0⟩, 20, 0, 0⟩).position.x ≤ 1280
      ∧ 0 ≤ (Asteroid.update 1280 720 1 ⟨⟨0, 0⟩, ⟨-1, 0⟩, 20, 0, 0⟩).position.y
      ∧ (Asteroid.update 1280 720 1 ⟨⟨0, 0⟩, ⟨-1, 0⟩, 20, 0, 0⟩).position.y ≤ 720)
    ∧ (0 ≤ (Player.update 1280 720 1 ⟨3, 4⟩ 0 0 ⟨⟨0, 0⟩, ⟨0, 0⟩, 0, 0⟩).position.x
      ∧ (Player.update 1280 720 1 ⟨3, 4⟩ 0 0 ⟨⟨0, 0⟩, ⟨0, 0⟩, 0, 0⟩).position.x ≤ 1280
      ∧ 0 ≤ (Player.update 1280 720 1 ⟨3, 4⟩ 0 0 ⟨⟨0, 0⟩, ⟨0, 0⟩, 0, 0⟩).position.y
      ∧ (Player.update 1280 720 1 ⟨3, 4⟩ 0 0 ⟨⟨0, 0⟩, ⟨0, 0⟩, 0, 0⟩).position.y ≤ 720)
    ∧ (wrapAxis 100 7 = 7 ↔ ((0:ℚ) ≤ 7 ∧ (7:ℚ) ≤ 100)))) :=
  ⟨by norm_num, by norm_num, by norm_num,
    C5_update_position_in_closed_box 1280 720 1 100 7
      ⟨⟨0, 0⟩, ⟨-1, 0⟩, 20, 0, 0⟩ ⟨⟨0, 0⟩, ⟨0, 0⟩, 0, 0⟩ ⟨3, 4⟩ 0 0
      (by norm_num) (by norm_num) (by norm_num)⟩
